import Mathlib

/-!
# Verification of the `openedx-saferpay` payment-processor adapter

Shallow embedding of `openedx_saferpay/processor.py` and
`openedx_saferpay/views.py` (with the route of `urls.py`), together with
theorems settling the specification claims about them.

Modelling conventions:
* Python values flowing through the adapter (JSON bodies, audit payloads,
  the dynamically-typed arguments of `raise_api_error`) are a single
  inductive `PyVal`; Python `dict`s are association lists with unique keys.
* Python exceptions are the inductive `PyExc`; a fallible computation
  returns `Except PyExc A`.  Oscar's `GatewayError` is a subclass of
  `PaymentError`, which `isPaymentError` reflects.
* Stateful code threads an explicit `St` (database of Processor Response
  Records, a fresh-id counter, a UUID counter and an observable event
  trace); audit writes survive a raised exception, hence the return type
  `Except PyExc A × St` rather than a state monad that drops state on error.
* The remote Saferpay service and the `requests` library are an oracle
  `ApiOracle : String → PyVal → HttpResult` mapping endpoint and sent
  body to the network outcome.  `Decimal`/float amounts are modelled as `ℚ`.
* HTTP auth-header construction (base64 of `user:password`) and the
  `getattr(requests, method.lower())` dispatch are not observable by any
  claim and are not modelled beyond keeping the `method` parameter.
-/

set_option autoImplicit false

namespace Saferpay

/-- A line of a basket; only the product title is read (for the
Initialize description). -/
structure BasketLine where
  product_title : String

/-- The host-owned basket, restricted to the attributes the adapter
reads: id, order number, currency, tax-inclusive total (`Decimal`,
modelled as `ℚ`) and lines. -/
structure Basket where
  id : Nat
  order_number : String
  currency : String
  total_incl_tax : ℚ
  lines : List BasketLine

/-- Python values as they occur in the adapter: JSON-ish data plus the
host objects (`Basket`, HTTP responses) that flow through the dynamically
typed `raise_api_error` helper.  `dict` is an association list. -/
inductive PyVal where
  | none
  | str (s : String)
  | int (n : Int)
  | dict (kvs : List (String × PyVal))
  | basketObj (b : Basket)
  | responseObj (status_code : Int) (content : String)

/-- Python exceptions raised by the modelled code. -/
inductive PyExc where
  | gatewayError (detail : PyVal)
  | paymentError
  | keyError (key : String)
  | attributeError (attr : String)
  | typeError (msg : String)
  | valueError (msg : String)
  | otherError (msg : String)

/-- `oscar`'s exception hierarchy: `GatewayError` is a subclass of
`PaymentError`, so both are caught by `except PaymentError`. -/
def isPaymentError : PyExc → Bool
  | .gatewayError _ => true
  | .paymentError => true
  | _ => false

/-- First value bound to key `k` in a Python dict modelled as an
association list (Python dicts have unique keys). -/
def lookup (kvs : List (String × PyVal)) (k : String) : Option PyVal :=
  (kvs.find? (fun kv => kv.1 == k)).map (·.2)

/-- Python `base.update(upd)` on dicts: keys of `upd` overwrite those of
`base` in place, new keys are appended in `upd`'s order. -/
def dictUpdate (base upd : List (String × PyVal)) : List (String × PyVal) :=
  (base.map (fun kv =>
    match upd.find? (fun kv2 => kv2.1 == kv.1) with
    | some kv2 => (kv.1, kv2.2)
    | Option.none => kv))
  ++ upd.filter (fun kv2 => ! base.any (fun kv => kv.1 == kv2.1))

/-- Python `d[k]` subscription: `KeyError` on a missing key, `TypeError`
when the subscripted value is not a dict. -/
def pyIndex (v : PyVal) (k : String) : Except PyExc PyVal :=
  match v with
  | .dict kvs =>
    match lookup kvs k with
    | some w => .ok w
    | Option.none => .error (.keyError k)
  | _ => .error (.typeError "object is not subscriptable")

/-- Subscription along a path of keys. -/
def lookupPath (v : PyVal) : List String → Option PyVal
  | [] => some v
  | k :: ks =>
    match pyIndex v k with
    | .ok w => lookupPath w ks
    | .error _ => Option.none

/-- Value of a decimal digit character. -/
def charDigit? (c : Char) : Option Nat :=
  if '0' ≤ c ∧ c ≤ '9' then some (c.toNat - 48) else Option.none

/-- Decimal value of a digit list (accumulator form); fails on a
non-digit. -/
def digitsValAux (acc : Nat) : List Char → Option Nat
  | [] => some acc
  | c :: rest =>
    match charDigit? c with
    | some d => digitsValAux (acc * 10 + d) rest
    | Option.none => Option.none

/-- Parse of a canonical integer numeral, as Python `int(str)` accepts it
(Python additionally tolerates surrounding whitespace, a leading `+` and
underscores, which the adapter never meets). -/
def pyStrToInt? (s : String) : Option Int :=
  match s.data with
  | [] => Option.none
  | '-' :: rest =>
    match rest with
    | [] => Option.none
    | _ => (digitsValAux 0 rest).map (fun n => -(n : Int))
  | l => (digitsValAux 0 l).map (fun n => ((n : Nat) : Int))

/-- Python `int(x)` for the values the adapter feeds it: parses a decimal
string, passes an int through, raises otherwise. -/
def pyIntFn (v : PyVal) : Except PyExc Int :=
  match v with
  | .int n => .ok n
  | .str s =>
    match pyStrToInt? s with
    | some n => .ok n
    | Option.none => .error (.valueError "invalid literal for int")
  | _ => .error (.typeError "int() argument")

/-- Python `int()` applied to a `Decimal`/float: truncation toward zero. -/
def truncRat (q : ℚ) : Int :=
  if 0 ≤ q.num then ((q.num.natAbs / q.den : Nat) : Int)
  else -((q.num.natAbs / q.den : Nat) : Int)

mutual

/-- `json.dumps` with its default separators, for the JSON-serializable
`PyVal`s the adapter dumps (string escaping is not needed by any claim's
inputs; non-JSON host objects would raise in Python and are rendered
opaquely here, they never reach a dump site). -/
def jsonDumps : PyVal → String
  | .none => "null"
  | .str s => "\"" ++ s ++ "\""
  | .int n => toString n
  | .dict kvs => "\x7b" ++ jsonDumpsEntries kvs ++ "\x7d"
  | .basketObj _ => "<basket>"
  | .responseObj _ _ => "<response>"

def jsonDumpsEntries : List (String × PyVal) → String
  | [] => ""
  | [kv] => "\"" ++ kv.1 ++ "\": " ++ jsonDumps kv.2
  | kv :: kv2 :: rest =>
    "\"" ++ kv.1 ++ "\": " ++ jsonDumps kv.2 ++ ", " ++ jsonDumpsEntries (kv2 :: rest)

end

/-- Wrap an optional basket (the Python `basket=None` default) as a
dynamically-typed value for `raise_api_error`. -/
def pyOfBasket : Option Basket → PyVal
  | Option.none => .none
  | some b => .basketObj b

/-- Recover a basket from a dynamically-typed value (`if basket`
truthiness followed by attribute access; every call site passes a basket
or `None`). -/
def basketOfPy : PyVal → Option Basket
  | .basketObj b => some b
  | _ => Option.none

/-- Adapter configuration (`__init__`), together with the host-provided
environment the adapter resolves at construction: the results of
`reverse("checkout:error")` and `reverse("checkout:cancel-checkout")`,
the absolute-URL prefix added by `get_ecommerce_url`, the mount prefix
under which `urls.py`'s patterns are included, and a supply of fresh
`uuid4()` strings (indexed by how many have been drawn). -/
structure Config where
  api_url : String
  api_username : String
  api_password : String
  customer_id : String
  terminal_id : String
  error_url : String
  cancel_url : String
  ecommerce_root : String
  saferpay_mount : String
  uuid : Nat → String

/-- `get_ecommerce_url`: absolute URL for a host-relative path. -/
def get_ecommerce_url (cfg : Config) (path : String) : String :=
  cfg.ecommerce_root ++ path

/-- `reverse("saferpay:callback_success", kwargs={"ppr_id": ppr_id})`,
reversing `urls.py`'s single pattern `completed/success/<int:ppr_id>/`
under the host-chosen mount prefix. -/
def reverse_callback_success (cfg : Config) (ppr_id : Nat) : String :=
  cfg.saferpay_mount ++ "completed/success/" ++ toString ppr_id ++ "/"

/-- `urljoin(self.api_url, endpoint)`; the configured base URL ends in a
slash and endpoints are relative, where `urljoin` is concatenation. -/
def urljoin (base endpoint : String) : String :=
  base ++ endpoint

/-- A Processor Response Record: the host-owned audit row
(`record_processor_response` creates one per gateway interaction). -/
structure PPR where
  id : Nat
  basket_id : Option Nat
  transaction_id : PyVal
  response : PyVal

/-- Observable events of a run, in order: audit-row creation (with the
row as created), an outbound HTTP request (endpoint and sent body), and
the two log sites the claims mention. -/
inductive Event where
  | recordCreated (ppr : PPR)
  | httpRequest (endpoint : String) (payload : PyVal)
  | logApiError (basket_id : Option Nat) (entry_id : Nat)
  | logPaymentAttemptFailed (basket_id : Nat)
  | logOrderPlacementException (order_number : String) (basket_id : Nat)

/-- Mutable world threaded through the adapter: persisted audit rows, the
database's next primary key, how many `uuid4()` values have been drawn,
and the event trace. -/
structure St where
  records : List PPR
  nextId : Nat
  uuidCount : Nat
  events : List Event

/-- `BasePaymentProcessor.record_processor_response(response,
transaction_id, basket)`: insert a new audit row and return it. -/
def record_processor_response (response : PyVal) (transaction_id : PyVal)
    (basket : Option Basket) (st : St) : PPR × St :=
  let ppr : PPR :=
    { id := st.nextId
      basket_id := basket.map (·.id)
      transaction_id := transaction_id
      response := response }
  (ppr,
    { st with
      records := st.records ++ [ppr]
      nextId := st.nextId + 1
      events := st.events ++ [.recordCreated ppr] })

/-- `Saferpay.raise_api_error(message, response, response_data, basket)`.
The four parameters are Python-dynamically typed (one call site passes
them out of order).  If `response` is not `None`, the error detail reads
`response.status_code`, which raises `AttributeError` unless `response`
really is an HTTP response object; otherwise the error payload is
persisted as a new audit row, the failure is logged, and `GatewayError`
is raised.  The function never returns normally, so its result is the
exception it raises together with the post-state. -/
def raise_api_error (message response response_data basket : PyVal)
    (st : St) : PyExc × St :=
  let error_response : Except PyExc PyVal :=
    match response with
    | .none => .ok .none
    | .responseObj status_code content =>
      .ok (.dict [("status_code", .int status_code),
                  ("content", .str content),
                  ("data", response_data)])
    | _ => .error (.attributeError "status_code")
  match error_response with
  | .error e => (e, st)
  | .ok er =>
    let error := PyVal.dict [("message", message), ("response", er)]
    let transaction_id : PyVal :=
      match basketOfPy basket with
      | some b => .str b.order_number
      | Option.none => .none
    let (entry, st1) := record_processor_response error transaction_id (basketOfPy basket) st
    let st2 : St :=
      { st1 with
        events := st1.events ++ [.logApiError ((basketOfPy basket).map (·.id)) entry.id] }
    (.gatewayError error, st2)

/-- `Saferpay.get_base_request_data(retry_indicator=0)`: the request
envelope, with a freshly drawn `uuid4()` string as request id. -/
def get_base_request_data (cfg : Config) (request_id : String)
    (retry_indicator : Int) : List (String × PyVal) :=
  [("RequestHeader",
    .dict [("SpecVersion", .str "1.19"),
           ("CustomerId", .str cfg.customer_id),
           ("RequestId", .str request_id),
           ("RetryIndicator", .int retry_indicator)])]

/-- An HTTP response as returned by the `requests` library: status code,
raw decoded body text, and the result of `.json()` (`none` when the body
is not parseable JSON, where `.json()` raises a JSON decode error). -/
structure HttpResponse where
  status_code : Int
  content : String
  jsonBody : Option PyVal

/-- Outcome of one outbound network call. -/
inductive HttpResult where
  | timeout
  | response (r : HttpResponse)

/-- The remote Saferpay service and network, as an oracle from endpoint
and sent JSON body to the network outcome. -/
def ApiOracle : Type := String → PyVal → HttpResult

/-- `Saferpay.make_api_json_request(endpoint, method, data, basket)`:
draw a request id, merge the envelope into the caller's payload with
`dict.update` (a `data` of `None` raises `TypeError` at this merge, before
any request is sent), send the request, and translate timeout / non-JSON
body / non-200 status into `raise_api_error`. -/
def make_api_json_request (cfg : Config) (oracle : ApiOracle)
    (endpoint method : String) (data : Option (List (String × PyVal)))
    (basket : Option Basket) (st : St) : Except PyExc PyVal × St :=
  let _url := urljoin cfg.api_url endpoint
  let _method := method
  let request_id := cfg.uuid st.uuidCount
  let st1 : St := { st with uuidCount := st.uuidCount + 1 }
  let base := get_base_request_data cfg request_id 0
  match data with
  | Option.none => (.error (.typeError "NoneType object is not iterable"), st1)
  | some d =>
    let request_data := PyVal.dict (dictUpdate base d)
    let st2 : St := { st1 with events := st1.events ++ [.httpRequest endpoint request_data] }
    match oracle endpoint request_data with
    | .timeout =>
      let (e, st3) := raise_api_error (.str "API timeout") .none (.dict [])
        (pyOfBasket basket) st2
      (.error e, st3)
    | .response r =>
      match r.jsonBody with
      | Option.none =>
        let (e, st3) := raise_api_error (.str "Could not parse JSON content from response")
          (.responseObj r.status_code r.content) (.dict []) (pyOfBasket basket) st2
        (.error e, st3)
      | some response_data =>
        if r.status_code ≠ 200 then
          let (e, st3) := raise_api_error (.str "Invalid API response")
            (.responseObj r.status_code r.content) response_data (pyOfBasket basket) st2
          (.error e, st3)
        else
          (.ok response_data, st2)

/-- The Initialize payload built by `get_transaction_parameters` (its
`data` local): terminal id, amount in cents as
`str(int(100 * basket.total_incl_tax))`, order id, description joining
the line titles with newlines, and the two return URLs, the success one
reversing `saferpay:callback_success` at the pre-created audit row's id. -/
def initialize_request_data (cfg : Config) (basket : Basket) (ppr_id : Nat) :
    List (String × PyVal) :=
  let description := String.intercalate "\n" (basket.lines.map (·.product_title))
  [("TerminalId", .str cfg.terminal_id),
   ("Payment",
    .dict [("Amount",
            .dict [("Value", .str (toString (truncRat (100 * basket.total_incl_tax)))),
                   ("CurrencyCode", .str basket.currency)]),
           ("OrderId", .str basket.order_number),
           ("Description", .str description)]),
   ("ReturnUrls",
    .dict [("Success", .str (get_ecommerce_url cfg (reverse_callback_success cfg ppr_id))),
           ("Fail", .str (get_ecommerce_url cfg cfg.cancel_url))])]

/-- `Saferpay.get_transaction_parameters(basket, ...)`: create the audit
row first (to embed its id in the return URLs), POST Initialize, read
`RedirectUrl` and `Token` (a `KeyError` on either is caught and routed to
`raise_api_error` — note the source passes the arguments there
positionally as `(basket, message)`, i.e. swapped), then update the
pre-created row in place and return the payment page URL. -/
def get_transaction_parameters (cfg : Config) (oracle : ApiOracle)
    (basket : Basket) (st : St) : Except PyExc (List (String × PyVal)) × St :=
  let (sppr, st1) := record_processor_response (.dict []) .none (some basket) st
  let data := initialize_request_data cfg basket sppr.id
  match make_api_json_request cfg oracle "Payment/v1/PaymentPage/Initialize" "POST"
      (some data) (some basket) st1 with
  | (.error e, st2) => (.error e, st2)
  | (.ok response_data, st2) =>
    let onKeyError : Except PyExc (List (String × PyVal)) × St :=
      let message := "Could not parse RedirectUrl field from response: content="
        ++ jsonDumps response_data
      -- source line 109: `self.raise_api_error(basket, message)` — the basket
      -- lands in the `message` parameter and the message in `response`
      let (e, st3) := raise_api_error (.basketObj basket) (.str message) .none .none st2
      (.error e, st3)
    match pyIndex response_data "RedirectUrl" with
    | .error (.keyError _) => onKeyError
    | .error e => (.error e, st2)
    | .ok payment_page_url =>
      match pyIndex response_data "Token" with
      | .error (.keyError _) => onKeyError
      | .error e => (.error e, st2)
      | .ok transaction_id =>
        let st3 : St :=
          { st2 with
            records := st2.records.map fun p =>
              if p.id = sppr.id then
                { p with transaction_id := transaction_id, response := response_data }
              else p }
        (.ok [("payment_page_url", payment_page_url)], st3)

/-- The value `handle_processor_response` hands back to the host after a
verified and captured payment. -/
structure HandledProcessorResponse where
  transaction_id : PyVal
  total : ℚ
  currency : PyVal
  card_number : PyVal
  card_type : PyVal

/-- Field extraction `handle_processor_response` performs on the Assert
body (source lines 146-150, in source evaluation order): bare
subscriptions — a missing key raises an uncaught `KeyError` — and
`int()` on the amount value. -/
def assert_fields (assert_data : PyVal) :
    Except PyExc (Int × PyVal × PyVal × PyVal × PyVal) := do
  let tr ← pyIndex assert_data "Transaction"
  let am ← pyIndex tr "Amount"
  let v ← pyIndex am "Value"
  let n ← pyIntFn v
  let cur ← pyIndex am "CurrencyCode"
  let pm ← pyIndex assert_data "PaymentMeans"
  let card ← pyIndex pm "Card"
  let card_number ← pyIndex card "MaskedNumber"
  let brand ← pyIndex pm "Brand"
  let card_type ← pyIndex brand "PaymentMethod"
  let tid ← pyIndex tr "Id"
  pure (n, cur, card_number, card_type, tid)

/-- `Saferpay.handle_processor_response(response, basket)`: POST Assert
with the token, read amount / currency / card fields and the transaction
id from the Assert body (`assert_fields`), POST Capture with that
transaction id, and return a `HandledProcessorResponse` whose transaction
id is the Capture body's `CaptureId`. -/
def handle_processor_response (cfg : Config) (oracle : ApiOracle)
    (response : String) (basket : Option Basket) (st : St) :
    Except PyExc HandledProcessorResponse × St :=
  let token := response
  let assert_request_data := [("Token", PyVal.str token)]
  match make_api_json_request cfg oracle "Payment/v1/PaymentPage/Assert" "POST"
      (some assert_request_data) basket st with
  | (.error e, st1) => (.error e, st1)
  | (.ok assert_data, st1) =>
    match assert_fields assert_data with
    | .error e => (.error e, st1)
    | .ok (n, cur, card_number, card_type, tid) =>
      let capture_request_data := [("TransactionReference", PyVal.dict [("TransactionId", tid)])]
      match make_api_json_request cfg oracle "Payment/v1/Transaction/Capture" "POST"
          (some capture_request_data) basket st1 with
      | (.error e, st2) => (.error e, st2)
      | (.ok capture_data, st2) =>
        match pyIndex capture_data "CaptureId" with
        | .error e => (.error e, st2)
        | .ok capture_id =>
          (.ok { transaction_id := capture_id
                 total := (n : ℚ) / 100
                 currency := cur
                 card_number := card_number
                 card_type := card_type }, st2)

/-- The Refund payload built by `issue_credit` (its
`refund_request_data` local): the amount as `str(int(amount * 100))` and
the caller's reference number as `CaptureReference.CaptureId`. -/
def refund_request_data (reference_number : String) (amount : ℚ)
    (currency : String) : List (String × PyVal) :=
  [("Refund",
    .dict [("Amount",
            .dict [("Value", .str (toString (truncRat (amount * 100)))),
                   ("CurrencyCode", .str currency)])]),
   ("CaptureReference", .dict [("CaptureId", .str reference_number)])]

/-- `Saferpay.issue_credit(order_number, basket, reference_number,
amount, currency)`: POST Refund addressing the reference number as the
capture id, read the refund transaction id, record the refund response as
a new audit row and return that id.  (The AssertRefund step is commented
out in the source.) -/
def issue_credit (cfg : Config) (oracle : ApiOracle) (order_number : String)
    (basket : Basket) (reference_number : String) (amount : ℚ)
    (currency : String) (st : St) : Except PyExc PyVal × St :=
  let _ := order_number
  let capture_id := reference_number
  let data := refund_request_data capture_id amount currency
  match make_api_json_request cfg oracle "Payment/v1/Transaction/Refund" "POST"
      (some data) (some basket) st with
  | (.error e, st1) => (.error e, st1)
  | (.ok refund_data, st1) =>
    let tid : Except PyExc PyVal := do
      let tr ← pyIndex refund_data "Transaction"
      pyIndex tr "Id"
    match tid with
    | .error e => (.error e, st1)
    | .ok transaction_id =>
      let (_, st2) := record_processor_response refund_data transaction_id (some basket) st1
      (.ok transaction_id, st2)

/-- Outcome of a host call that either returns or raises. -/
inductive PyRes (α : Type) where
  | ok (a : α)
  | raises (e : PyExc)

/-- The order object returned by the host's `create_order`. -/
structure Order where
  number : String

/-- Host collaborators of `SaferpaySuccessCallbackView.get`, which live
outside this repository (the ORM basket resolver for `ppr.basket`,
`get_receipt_page_url` keyed by the basket's order number, and the
`EdxOrderPlacementMixin` operations `handle_payment`, `create_order`,
`handle_post_order`).  Their outcomes are oracle data. -/
structure ViewOracle where
  baskets : Option Nat → Basket
  receipt_url : String → String
  handle_payment : PyVal → Basket → PyRes Unit
  create_order : Basket → PyRes Order
  handle_post_order : Order → PyRes Unit

/-- The HTTP response produced by the callback view. -/
inductive HttpOutcome where
  | notFound
  | redirect (url : String)

/-- Observable calls and log lines of one callback invocation, in
order. -/
inductive VEvent where
  | handlePayment (transaction_id : PyVal)
  | createOrder
  | handlePostOrder (order_number : String)
  | logPaymentAttemptFailed (basket_id : Nat)
  | logOrderPlacementException (order_number : String) (basket_id : Nat)

/-- `SaferpaySuccessCallbackView.get(request, ppr_id)`: look the audit
row up by id (404 when absent), resolve its basket, precompute the
receipt URL, run `handle_payment(ppr.transaction_id, basket)` inside the
atomic block — a `PaymentError` (including its subclass `GatewayError`)
redirects to the processor's `error_url`, any other exception is logged
and redirects to the receipt URL; then `create_order` (any exception
redirects to the receipt URL) and `handle_post_order` (any exception is
logged via `log_order_placement_exception(basket.order_number,
basket.id)` and swallowed), finally redirect to the receipt URL.
(`Exception`-transcending aborts like `SystemExit` are outside `PyExc`'s
scope; the `transaction.atomic` rollback boundary touches only host
order-placement state, which is oracle data here.) -/
def success_callback_get (cfg : Config) (vo : ViewOracle) (st : St)
    (ppr_id : Nat) : HttpOutcome × List VEvent :=
  match st.records.find? (fun p => p.id == ppr_id) with
  | Option.none => (.notFound, [])
  | some ppr =>
    let basket := vo.baskets ppr.basket_id
    let receipt_url := vo.receipt_url basket.order_number
    match vo.handle_payment ppr.transaction_id basket with
    | .raises e =>
      if isPaymentError e then
        (.redirect cfg.error_url, [.handlePayment ppr.transaction_id])
      else
        (.redirect receipt_url,
         [.handlePayment ppr.transaction_id, .logPaymentAttemptFailed basket.id])
    | .ok _ =>
      match vo.create_order basket with
      | .raises _ =>
        (.redirect receipt_url, [.handlePayment ppr.transaction_id, .createOrder])
      | .ok order =>
        match vo.handle_post_order order with
        | .raises _ =>
          (.redirect receipt_url,
           [.handlePayment ppr.transaction_id, .createOrder, .handlePostOrder order.number,
            .logOrderPlacementException basket.order_number basket.id])
        | .ok _ =>
          (.redirect receipt_url,
           [.handlePayment ppr.transaction_id, .createOrder, .handlePostOrder order.number])

/-! ### Concrete fixtures used to evaluate the model -/

/-- A concrete configuration in the shape `__init__` consumes. -/
def testCfg : Config :=
  { api_url := "https://test.saferpay.com/api/"
    api_username := "API_ABC_DEF"
    api_password := "JsonApiPwdX"
    customer_id := "ABC"
    terminal_id := "GHI"
    error_url := "/checkout/error/"
    cancel_url := "/checkout/cancel-checkout/"
    ecommerce_root := "https://shop.example.com"
    saferpay_mount := "/payment/saferpay/"
    uuid := fun n => "uuid-" ++ toString n }

/-- A concrete basket: one line, total 19.99 CHF. -/
def testBasket : Basket :=
  { id := 7
    order_number := "EDX-100042"
    currency := "CHF"
    total_incl_tax := 19.99
    lines := [{ product_title := "Course A" }] }

/-- An empty initial database state. -/
def st0 : St := { records := [], nextId := 1, uuidCount := 0, events := [] }

/-- A 200 response whose raw text is the dumped body and whose `.json()`
succeeds. -/
def ok200 (body : PyVal) : HttpResult :=
  .response { status_code := 200, content := jsonDumps body, jsonBody := some body }

/-- A service that answers every call with HTTP 200 and the body
`{"SomeOtherField": "x"}` (lacking `RedirectUrl` and `Token`). -/
def someOtherFieldOracle : ApiOracle :=
  fun _ _ => ok200 (.dict [("SomeOtherField", .str "x")])

/-- A network on which every call times out. -/
def timeoutOracle : ApiOracle := fun _ _ => .timeout

/-- The error payload `raise_api_error` builds for a timeout. -/
def timeoutErrorPayload : PyVal :=
  .dict [("message", .str "API timeout"), ("response", .none)]

/-- A well-formed Assert response body with the given amount value,
currency, masked card number, payment method and transaction id. -/
def mkAssertBody (value currencyCode maskedNumber paymentMethod tid : String) : PyVal :=
  .dict [("Transaction",
          .dict [("Id", .str tid),
                 ("Amount", .dict [("Value", .str value), ("CurrencyCode", .str currencyCode)])]),
         ("PaymentMeans",
          .dict [("Card", .dict [("MaskedNumber", .str maskedNumber)]),
                 ("Brand", .dict [("PaymentMethod", .str paymentMethod)])])]

/-- A well-formed Capture response body with the given capture id. -/
def mkCaptureBody (captureId : String) : PyVal :=
  .dict [("CaptureId", .str captureId)]

/-- A service answering Capture calls with `cb` and every other call
(in particular Assert) with `ab`, always with HTTP 200. -/
def assertCaptureOracle (ab cb : PyVal) : ApiOracle :=
  fun endpoint _ =>
    if endpoint = "Payment/v1/Transaction/Capture" then ok200 cb else ok200 ab

/-! ### Claims -/

/-- C1 (code bug): with an Initialize response `{"SomeOtherField": "x"}`
that lacks `RedirectUrl`/`Token`, the claim (and the spec) say
`get_transaction_parameters` raises a gateway error whose message begins
with `Could not parse RedirectUrl field from response: content=` and that
exactly one additional audit record stores that message.  The source
instead calls `self.raise_api_error(basket, message)` — positionally
swapped against `raise_api_error(self, message, response=None, ...)` — so
`response` is the message string, `response.status_code` raises
`AttributeError`, no `GatewayError` is raised and no additional audit
record is created: only the one record pre-created at entry (empty
payload, no transaction id) exists afterwards. -/
theorem c1_missing_fields_raise_attribute_error_not_gateway_error :
    (get_transaction_parameters testCfg someOtherFieldOracle testBasket st0).1
        = .error (.attributeError "status_code")
    ∧ (get_transaction_parameters testCfg someOtherFieldOracle testBasket st0).2.records
        = [{ id := 1, basket_id := some 7, transaction_id := .none, response := .dict [] }] := by
  exact ⟨rfl, rfl⟩

/-! ### Helper lemmas on the error helper and the request helper -/

/-- The audit row `raise_api_error` persists. -/
def api_error_row (message error_response : PyVal) (basket : Option Basket)
    (nextId : Nat) : PPR :=
  { id := nextId
    basket_id := basket.map (·.id)
    transaction_id := match basket with | some b => .str b.order_number | Option.none => .none
    response := .dict [("message", message), ("response", error_response)] }

theorem basketOfPy_pyOfBasket (b : Option Basket) : basketOfPy (pyOfBasket b) = b := by
  cases b <;> rfl

/-- Evaluation of `raise_api_error` when `response is None`. -/
theorem raise_api_error_none (m rd b : PyVal) (st : St) :
    raise_api_error m .none rd b st
      = (.gatewayError (.dict [("message", m), ("response", .none)]),
         { st with
           records := st.records ++ [api_error_row m .none (basketOfPy b) st.nextId]
           nextId := st.nextId + 1
           events := st.events ++ [.recordCreated (api_error_row m .none (basketOfPy b) st.nextId)]
             ++ [.logApiError ((basketOfPy b).map (·.id)) st.nextId] }) := rfl

/-- Evaluation of `raise_api_error` on a real HTTP response object. -/
theorem raise_api_error_response (m rd b : PyVal) (status_code : Int) (content : String)
    (st : St) :
    raise_api_error m (.responseObj status_code content) rd b st
      = (.gatewayError (.dict [("message", m),
            ("response", .dict [("status_code", .int status_code),
                                ("content", .str content), ("data", rd)])]),
         { st with
           records := st.records
             ++ [api_error_row m (.dict [("status_code", .int status_code),
                  ("content", .str content), ("data", rd)]) (basketOfPy b) st.nextId]
           nextId := st.nextId + 1
           events := st.events
             ++ [.recordCreated (api_error_row m (.dict [("status_code", .int status_code),
                  ("content", .str content), ("data", rd)]) (basketOfPy b) st.nextId)]
             ++ [.logApiError ((basketOfPy b).map (·.id)) st.nextId] }) := rfl

/-- Every request issued through `make_api_json_request` with a real
payload shows up as an `httpRequest` event for the merged body, directly
after the caller's prior events. -/
theorem make_api_json_request_events (cfg : Config) (oracle : ApiOracle)
    (endpoint method : String) (d : List (String × PyVal)) (basket : Option Basket)
    (st : St) :
    ∃ rest,
      (make_api_json_request cfg oracle endpoint method (some d) basket st).2.events
        = st.events
          ++ [.httpRequest endpoint
                (PyVal.dict (dictUpdate (get_base_request_data cfg (cfg.uuid st.uuidCount) 0) d))]
          ++ rest := by
  unfold make_api_json_request
  cases ho : oracle endpoint
      (PyVal.dict (dictUpdate (get_base_request_data cfg (cfg.uuid st.uuidCount) 0) d)) with
  | timeout =>
    simp only [ho, raise_api_error_none]
    exact ⟨_, by simp; rfl⟩
  | response r =>
    cases hb : r.jsonBody with
    | none =>
      simp only [ho, hb, raise_api_error_response]
      exact ⟨_, by simp; rfl⟩
    | some body =>
      simp only [ho, hb]
      by_cases hs : r.status_code ≠ 200
      · simp only [if_pos hs, raise_api_error_response]
        exact ⟨_, by simp; rfl⟩
      · simp only [if_neg hs]
        exact ⟨[], by simp⟩

/-- C2 (amended): every failure `make_api_json_request` itself detects —
timeout, non-JSON body, non-200 status — is raised as the single
`GatewayError` condition, and the error payload is persisted as exactly
one new audit row before the raise. -/
theorem c2_request_helper_failures_normalized_and_audited (cfg : Config)
    (oracle : ApiOracle) (endpoint method : String) (d : List (String × PyVal))
    (basket : Option Basket) (st : St) (e : PyExc)
    (h : (make_api_json_request cfg oracle endpoint method (some d) basket st).1 = .error e) :
    ∃ detail ppr,
      e = .gatewayError detail ∧ ppr.response = detail
      ∧ (make_api_json_request cfg oracle endpoint method (some d) basket st).2.records
          = st.records ++ [ppr] := by
  unfold make_api_json_request at h ⊢
  cases ho : oracle endpoint
      (PyVal.dict (dictUpdate (get_base_request_data cfg (cfg.uuid st.uuidCount) 0) d)) with
  | timeout =>
    simp only [ho, raise_api_error_none] at h ⊢
    injection h with hh
    exact ⟨_, api_error_row (.str "API timeout") .none (basketOfPy (pyOfBasket basket))
      st.nextId, hh.symm, rfl, by simp⟩
  | response r =>
    cases hb : r.jsonBody with
    | none =>
      simp only [ho, hb, raise_api_error_response] at h ⊢
      injection h with hh
      exact ⟨_, api_error_row (.str "Could not parse JSON content from response")
        (.dict [("status_code", .int r.status_code), ("content", .str r.content),
                ("data", .dict [])])
        (basketOfPy (pyOfBasket basket)) st.nextId, hh.symm, rfl, by simp⟩
    | some body =>
      simp only [ho, hb] at h ⊢
      by_cases hs : r.status_code ≠ 200
      · simp only [if_pos hs, raise_api_error_response] at h ⊢
        injection h with hh
        exact ⟨_, api_error_row (.str "Invalid API response")
          (.dict [("status_code", .int r.status_code), ("content", .str r.content),
                  ("data", body)])
          (basketOfPy (pyOfBasket basket)) st.nextId, hh.symm, rfl, by simp⟩
      · simp only [if_neg hs] at h
        exact absurd h (by simp)

/-- C2 (counterexample): an HTTP-200 Assert response with body
`{"SomeOtherField": "x"}` — a successful but unparsable shape — makes
`handle_processor_response` raise a bare `KeyError("Transaction")`, not
the gateway-error condition, and no audit row is created. -/
theorem c2_counterexample_assert_missing_key_not_normalized :
    (handle_processor_response testCfg someOtherFieldOracle "TOKEN123" (some testBasket) st0).1
        = .error (.keyError "Transaction")
    ∧ (handle_processor_response testCfg someOtherFieldOracle "TOKEN123" (some testBasket) st0).2.records
        = [] := by
  exact ⟨rfl, rfl⟩

/-- C2 (witness): the amended theorem applied to a timed-out Assert call
on the concrete fixtures. -/
theorem c2_request_helper_failures_normalized_and_audited_witness :
    ∃ detail ppr,
      PyExc.gatewayError timeoutErrorPayload = .gatewayError detail
      ∧ ppr.response = detail
      ∧ (make_api_json_request testCfg timeoutOracle "Payment/v1/PaymentPage/Assert" "POST"
          (some [("Token", .str "TOKEN123")]) (some testBasket) st0).2.records
          = st0.records ++ [ppr] :=
  c2_request_helper_failures_normalized_and_audited testCfg timeoutOracle
    "Payment/v1/PaymentPage/Assert" "POST" [("Token", .str "TOKEN123")]
    (some testBasket) st0 (.gatewayError timeoutErrorPayload) rfl

theorem except_bind_ok {ε α β : Type} (a : α) (f : α → Except ε β) :
    ((Except.ok a : Except ε α) >>= f) = f a := rfl

theorem except_bind_error {ε α β : Type} (e : ε) (f : α → Except ε β) :
    ((Except.error e : Except ε α) >>= f) = .error e := rfl

theorem except_pure_eq {ε α : Type} (a : α) : (pure a : Except ε α) = .ok a := rfl

/-- Full evaluation of `handle_processor_response` against a service that
answers Assert and Capture with well-formed bodies: the returned
`HandledProcessorResponse` carries the Capture body's `CaptureId` as
transaction id and the parsed Assert amount divided by 100 as total. -/
theorem handle_processor_response_eval (cfg : Config) (basket : Option Basket)
    (st : St) (token value currencyCode maskedNumber paymentMethod tid capId : String)
    (n : Int) (hv : pyStrToInt? value = some n) :
    (handle_processor_response cfg
        (assertCaptureOracle (mkAssertBody value currencyCode maskedNumber paymentMethod tid)
          (mkCaptureBody capId)) token basket st).1
      = .ok { transaction_id := .str capId
              total := (n : ℚ) / 100
              currency := .str currencyCode
              card_number := .str maskedNumber
              card_type := .str paymentMethod } := by
  simp [handle_processor_response, assert_fields, make_api_json_request,
    assertCaptureOracle, mkAssertBody, mkCaptureBody, ok200, pyIndex, lookup, pyIntFn, hv,
    except_bind_ok, except_bind_error, except_pure_eq]

/-- Trace prefix of `issue_credit`: whatever the service does, the run
starts by issuing the Refund request with the merged body. -/
theorem issue_credit_events_start (cfg : Config) (oracle : ApiOracle)
    (order_number : String) (basket : Basket) (R : String) (amount : ℚ)
    (currency : String) (st : St) :
    ∃ rest,
      (issue_credit cfg oracle order_number basket R amount currency st).2.events
        = st.events
          ++ [Event.httpRequest "Payment/v1/Transaction/Refund"
                (PyVal.dict (dictUpdate (get_base_request_data cfg (cfg.uuid st.uuidCount) 0)
                  (refund_request_data R amount currency)))]
          ++ rest := by
  obtain ⟨rest1, h1⟩ := make_api_json_request_events cfg oracle
    "Payment/v1/Transaction/Refund" "POST" (refund_request_data R amount currency)
    (some basket) st
  simp only [issue_credit]
  rcases hm : make_api_json_request cfg oracle "Payment/v1/Transaction/Refund" "POST"
      (some (refund_request_data R amount currency)) (some basket) st with ⟨res, st1⟩
  rw [hm] at h1
  have h2 : st1.events = _ := h1
  cases res with
  | error e => exact ⟨rest1, h2⟩
  | ok refund_data =>
    cases ht : (do
        let tr ← pyIndex refund_data "Transaction"
        pyIndex tr "Id" : Except PyExc PyVal) with
    | error e =>
      simp only [ht]
      exact ⟨rest1, h2⟩
    | ok transaction_id =>
      simp only [ht]
      exact ⟨_, by simp [record_processor_response, h2]; rfl⟩

/-- Trace prefix of `handle_processor_response`: whatever the service
does, the run starts by issuing the Assert request with the merged
token body. -/
theorem handle_processor_response_events_start (cfg : Config) (oracle : ApiOracle)
    (token : String) (basket : Option Basket) (st : St) :
    ∃ rest,
      (handle_processor_response cfg oracle token basket st).2.events
        = st.events
          ++ [Event.httpRequest "Payment/v1/PaymentPage/Assert"
                (PyVal.dict (dictUpdate (get_base_request_data cfg (cfg.uuid st.uuidCount) 0)
                  [("Token", PyVal.str token)]))]
          ++ rest := by
  obtain ⟨rest1, h1⟩ := make_api_json_request_events cfg oracle
    "Payment/v1/PaymentPage/Assert" "POST" [("Token", PyVal.str token)] basket st
  simp only [handle_processor_response]
  rcases hm : make_api_json_request cfg oracle "Payment/v1/PaymentPage/Assert" "POST"
      (some [("Token", PyVal.str token)]) basket st with ⟨res, st1⟩
  rw [hm] at h1
  have h2 : st1.events = _ := h1
  cases res with
  | error e => exact ⟨rest1, h2⟩
  | ok assert_data =>
    cases hf : assert_fields assert_data with
    | error e =>
      simp only [hf]
      exact ⟨rest1, h2⟩
    | ok tup =>
      obtain ⟨n, cur, card_number, card_type, tid⟩ := tup
      simp only [hf]
      obtain ⟨rest2, h3⟩ := make_api_json_request_events cfg oracle
        "Payment/v1/Transaction/Capture" "POST"
        [("TransactionReference", PyVal.dict [("TransactionId", tid)])] basket st1
      rcases hm2 : make_api_json_request cfg oracle "Payment/v1/Transaction/Capture" "POST"
          (some [("TransactionReference", PyVal.dict [("TransactionId", tid)])]) basket
          st1 with ⟨res2, st2⟩
      rw [hm2] at h3
      have h4 : st2.events = _ := h3
      rw [h2] at h4
      cases res2 with
      | error e => exact ⟨_, by simp [h4]; rfl⟩
      | ok capture_data =>
        cases hc : pyIndex capture_data "CaptureId" with
        | error e =>
          simp only [hc]
          exact ⟨_, by simp [h4]; rfl⟩
        | ok capture_id =>
          simp only [hc]
          exact ⟨_, by simp [h4]; rfl⟩

/-- C3: `handle_processor_response` returns a `HandledProcessorResponse`
whose transaction identifier is the Capture response's `CaptureId` (the
Assert-reported transaction id `tid` is a distinct free variable here),
and `issue_credit` with reference number `R` sends a Refund request whose
`CaptureReference.CaptureId` equals `R` — so the id handed back after
capture is exactly the value later addressed as the refund reference. -/
theorem c3_capture_id_returned_and_used_as_refund_reference :
    (∀ (cfg : Config) (basket : Option Basket) (st : St)
       (token value currencyCode maskedNumber paymentMethod tid capId : String) (n : Int),
       pyStrToInt? value = some n →
       (handle_processor_response cfg
           (assertCaptureOracle (mkAssertBody value currencyCode maskedNumber paymentMethod tid)
             (mkCaptureBody capId)) token basket st).1
         = .ok { transaction_id := .str capId
                 total := (n : ℚ) / 100
                 currency := .str currencyCode
                 card_number := .str maskedNumber
                 card_type := .str paymentMethod })
    ∧ (∀ (cfg : Config) (oracle : ApiOracle) (order_number : String) (basket : Basket)
         (R : String) (amount : ℚ) (currency : String) (st : St),
       ∃ payload rest,
         (issue_credit cfg oracle order_number basket R amount currency st).2.events
           = st.events ++ [.httpRequest "Payment/v1/Transaction/Refund" payload] ++ rest
         ∧ lookupPath payload ["CaptureReference", "CaptureId"] = some (.str R)) := by
  constructor
  · intro cfg basket st token value currencyCode maskedNumber paymentMethod tid capId n hv
    exact handle_processor_response_eval cfg basket st token value currencyCode maskedNumber
      paymentMethod tid capId n hv
  · intro cfg oracle order_number basket R amount currency st
    obtain ⟨rest, h⟩ := issue_credit_events_start cfg oracle order_number basket R
      amount currency st
    exact ⟨_, rest, h, by
      simp [lookupPath, pyIndex, lookup, dictUpdate, get_base_request_data,
        refund_request_data]⟩

/-- C3 (witness): the theorem applied at capture id `"CAP123"`, amount
string `"1999"`, and a refund for reference number `"CAP123"`. -/
theorem c3_capture_id_returned_and_used_as_refund_reference_witness :
    ((handle_processor_response testCfg
        (assertCaptureOracle (mkAssertBody "1999" "CHF" "XXXX-1234" "VISA" "TID1")
          (mkCaptureBody "CAP123")) "TOKEN123" (some testBasket) st0).1
      = .ok { transaction_id := .str "CAP123"
              total := ((1999 : Int) : ℚ) / 100
              currency := .str "CHF"
              card_number := .str "XXXX-1234"
              card_type := .str "VISA" })
    ∧ (∃ payload rest,
        (issue_credit testCfg someOtherFieldOracle "ORDER1" testBasket "CAP123" 25 "CHF" st0).2.events
          = st0.events ++ [.httpRequest "Payment/v1/Transaction/Refund" payload] ++ rest
        ∧ lookupPath payload ["CaptureReference", "CaptureId"] = some (.str "CAP123")) :=
  ⟨c3_capture_id_returned_and_used_as_refund_reference.1 testCfg (some testBasket) st0
      "TOKEN123" "1999" "CHF" "XXXX-1234" "VISA" "TID1" "CAP123" 1999 (by decide),
   c3_capture_id_returned_and_used_as_refund_reference.2 testCfg someOtherFieldOracle
      "ORDER1" testBasket "CAP123" 25 "CHF" st0⟩

/-- Truncation toward zero of an integer-valued rational is that
integer. -/
theorem truncRat_intCast (n : Int) : truncRat ((n : ℚ)) = n := by
  simp only [truncRat, Rat.num_intCast, Rat.den_intCast, Nat.div_one]
  split <;> omega

/-- C4: the Initialize body sent for a basket carries
`Payment.Amount.Value = str(int(100 * total))` and the basket's currency;
a handled Assert response with amount string parsing to `n` yields total
`n / 100`; truncation round-trips exactly on any total with at most two
decimals; and concretely 19.99 encodes to `"1999"`, which decodes back to
exactly 19.99. -/
theorem c4_amount_minor_unit_encoding_roundtrip :
    (∀ (cfg : Config) (basket : Basket) (ppr_id : Nat) (request_id : String),
      lookupPath (PyVal.dict (dictUpdate (get_base_request_data cfg request_id 0)
          (initialize_request_data cfg basket ppr_id))) ["Payment", "Amount", "Value"]
        = some (.str (toString (truncRat (100 * basket.total_incl_tax))))
      ∧ lookupPath (PyVal.dict (dictUpdate (get_base_request_data cfg request_id 0)
          (initialize_request_data cfg basket ppr_id))) ["Payment", "Amount", "CurrencyCode"]
        = some (.str basket.currency))
    ∧ (∀ (cfg : Config) (basket : Option Basket) (st : St)
         (token currencyCode maskedNumber paymentMethod tid capId value : String) (n : Int),
        pyStrToInt? value = some n →
        ∃ hpr, (handle_processor_response cfg
            (assertCaptureOracle (mkAssertBody value currencyCode maskedNumber paymentMethod tid)
              (mkCaptureBody capId)) token basket st).1 = .ok hpr
          ∧ hpr.total = (n : ℚ) / 100)
    ∧ (∀ (T : ℚ) (n : Int), 100 * T = (n : ℚ) → ((truncRat (100 * T) : ℚ)) / 100 = T)
    ∧ toString (truncRat (100 * (19.99 : ℚ))) = "1999"
    ∧ ((1999 : Int) : ℚ) / 100 = 19.99 := by
  refine ⟨?_, ?_, ?_, ?_, by norm_num⟩
  · intro cfg basket ppr_id request_id
    constructor <;>
      simp [lookupPath, pyIndex, lookup, dictUpdate, get_base_request_data,
        initialize_request_data]
  · intro cfg basket st token currencyCode maskedNumber paymentMethod tid capId value n hv
    exact ⟨_, handle_processor_response_eval cfg basket st token value currencyCode
      maskedNumber paymentMethod tid capId n hv, rfl⟩
  · intro T n h
    rw [h, truncRat_intCast, ← h]
    ring
  · rw [show (100 * (19.99 : ℚ)) = ((1999 : Int) : ℚ) by norm_num, truncRat_intCast]
    decide

/-- C4 (witness): the parsing conjunct at amount string `"1999"` and the
round-trip conjunct at `T = 19.99`, `n = 1999`. -/
theorem c4_amount_minor_unit_encoding_roundtrip_witness :
    (∃ hpr, (handle_processor_response testCfg
        (assertCaptureOracle (mkAssertBody "1999" "CHF" "XXXX-1234" "VISA" "TID1")
          (mkCaptureBody "CAP123")) "TOKEN123" (some testBasket) st0).1 = .ok hpr
      ∧ hpr.total = ((1999 : Int) : ℚ) / 100)
    ∧ ((truncRat (100 * (19.99 : ℚ)) : ℚ)) / 100 = 19.99 :=
  ⟨c4_amount_minor_unit_encoding_roundtrip.2.1 testCfg (some testBasket) st0 "TOKEN123"
      "CHF" "XXXX-1234" "VISA" "TID1" "CAP123" "1999" 1999 (by decide),
   c4_amount_minor_unit_encoding_roundtrip.2.2.1 19.99 1999 (by norm_num)⟩

/-- Trace prefix of `get_transaction_parameters`: whatever the service
does, the run starts by persisting the pristine audit row and then
issuing the Initialize request with the merged body. -/
theorem get_transaction_parameters_events_start
    (cfg : Config) (oracle : ApiOracle) (basket : Basket) (st : St) :
    ∃ rest,
      (get_transaction_parameters cfg oracle basket st).2.events
        = st.events
          ++ [Event.recordCreated
                { id := st.nextId, basket_id := some basket.id,
                  transaction_id := .none, response := .dict [] },
              Event.httpRequest "Payment/v1/PaymentPage/Initialize"
                (PyVal.dict (dictUpdate (get_base_request_data cfg (cfg.uuid st.uuidCount) 0)
                  (initialize_request_data cfg basket st.nextId)))]
          ++ rest := by
  obtain ⟨rest1, h1⟩ := make_api_json_request_events cfg oracle
    "Payment/v1/PaymentPage/Initialize" "POST" (initialize_request_data cfg basket st.nextId)
    (some basket) ((record_processor_response (.dict []) .none (some basket) st).2)
  simp only [record_processor_response] at h1
  simp only [get_transaction_parameters, record_processor_response]
  split
  next e st2 heq =>
    rw [heq] at h1
    simp at h1
    exact ⟨rest1, by simp [h1]⟩
  next response_data st2 heq =>
    rw [heq] at h1
    simp at h1
    split
    any_goals split
    all_goals exact ⟨rest1, by simp [raise_api_error, h1]⟩

/-- C5: for every basket, service behaviour and prior state,
`get_transaction_parameters` first persists an audit row (fresh id,
linked to the basket, empty payload, no transaction id) and only then
issues the Initialize request — the row-creation event immediately
precedes the request event in the trace — and the sent Initialize body's
`ReturnUrls.Success` URL embeds that row's id verbatim. -/
theorem c5_record_created_before_initialize_and_id_in_success_url
    (cfg : Config) (oracle : ApiOracle) (basket : Basket) (st : St) :
    (∃ rest,
      (get_transaction_parameters cfg oracle basket st).2.events
        = st.events
          ++ [Event.recordCreated
                { id := st.nextId, basket_id := some basket.id,
                  transaction_id := .none, response := .dict [] },
              Event.httpRequest "Payment/v1/PaymentPage/Initialize"
                (PyVal.dict (dictUpdate (get_base_request_data cfg (cfg.uuid st.uuidCount) 0)
                  (initialize_request_data cfg basket st.nextId)))]
          ++ rest)
    ∧ lookupPath (PyVal.dict (dictUpdate (get_base_request_data cfg (cfg.uuid st.uuidCount) 0)
          (initialize_request_data cfg basket st.nextId))) ["ReturnUrls", "Success"]
        = some (.str (cfg.ecommerce_root ++ (cfg.saferpay_mount ++ "completed/success/"
            ++ toString st.nextId ++ "/"))) := by
  refine ⟨get_transaction_parameters_events_start cfg oracle basket st, ?_⟩
  simp [lookupPath, pyIndex, lookup, dictUpdate, get_base_request_data,
    initialize_request_data, get_ecommerce_url, reverse_callback_success]

/-- C6: if payment handling raises a payment-specific error
(`PaymentError`, including its subclass `GatewayError`), the callback
view responds with a redirect to the processor's configured error URL and
order creation is never invoked in that request. -/
theorem c6_payment_error_redirects_to_error_url_without_order
    (cfg : Config) (vo : ViewOracle) (st : St) (ppr_id : Nat) (ppr : PPR) (e : PyExc)
    (hfind : st.records.find? (fun p => p.id == ppr_id) = some ppr)
    (hpay : vo.handle_payment ppr.transaction_id (vo.baskets ppr.basket_id) = .raises e)
    (he : isPaymentError e = true) :
    (success_callback_get cfg vo st ppr_id).1 = .redirect cfg.error_url
    ∧ VEvent.createOrder ∉ (success_callback_get cfg vo st ppr_id).2 := by
  unfold success_callback_get
  rw [hfind]
  simp [hpay, he]

/-- The pending audit row as the callback finds it. -/
def cbPpr : PPR :=
  { id := 1, basket_id := some 7, transaction_id := .str "TOKEN123", response := .dict [] }

/-- A database holding only the pending audit row. -/
def cbSt : St := { records := [cbPpr], nextId := 2, uuidCount := 0, events := [] }

/-- Host collaborators for which payment handling raises a
`GatewayError` (a payment-specific error). -/
def paymentErrorVo : ViewOracle :=
  { baskets := fun _ => testBasket
    receipt_url := fun order_number =>
      "https://shop.example.com/checkout/receipt/?order_number=" ++ order_number
    handle_payment := fun _ _ => .raises (.gatewayError timeoutErrorPayload)
    create_order := fun _ => .ok { number := "EDX-100042" }
    handle_post_order := fun _ => .ok () }

/-- C6 (witness): the theorem applied to the concrete fixtures. -/
theorem c6_payment_error_redirects_to_error_url_without_order_witness :
    (success_callback_get testCfg paymentErrorVo cbSt 1).1 = .redirect testCfg.error_url
    ∧ VEvent.createOrder ∉ (success_callback_get testCfg paymentErrorVo cbSt 1).2 :=
  c6_payment_error_redirects_to_error_url_without_order testCfg paymentErrorVo cbSt 1
    cbPpr (.gatewayError timeoutErrorPayload) rfl rfl rfl

/-- C9: if payment handling and order creation succeed but post-order
handling raises, the callback view still redirects to the receipt URL and
the failure is logged via `log_order_placement_exception` with the
basket's order number and the basket id. -/
theorem c9_post_order_failure_swallowed_and_logged
    (cfg : Config) (vo : ViewOracle) (st : St) (ppr_id : Nat) (ppr : PPR)
    (order : Order) (e : PyExc)
    (hfind : st.records.find? (fun p => p.id == ppr_id) = some ppr)
    (hpay : vo.handle_payment ppr.transaction_id (vo.baskets ppr.basket_id) = .ok ())
    (horder : vo.create_order (vo.baskets ppr.basket_id) = .ok order)
    (hpost : vo.handle_post_order order = .raises e) :
    (success_callback_get cfg vo st ppr_id).1
        = .redirect (vo.receipt_url (vo.baskets ppr.basket_id).order_number)
    ∧ VEvent.logOrderPlacementException (vo.baskets ppr.basket_id).order_number
        (vo.baskets ppr.basket_id).id ∈ (success_callback_get cfg vo st ppr_id).2 := by
  unfold success_callback_get
  rw [hfind]
  simp [hpay, horder, hpost]

/-- Host collaborators for which only post-order handling raises. -/
def postOrderFailVo : ViewOracle :=
  { baskets := fun _ => testBasket
    receipt_url := fun order_number =>
      "https://shop.example.com/checkout/receipt/?order_number=" ++ order_number
    handle_payment := fun _ _ => .ok ()
    create_order := fun _ => .ok { number := "EDX-100042" }
    handle_post_order := fun _ => .raises (.otherError "notification failed") }

/-- C9 (witness): the theorem applied to the concrete fixtures. -/
theorem c9_post_order_failure_swallowed_and_logged_witness :
    (success_callback_get testCfg postOrderFailVo cbSt 1).1
        = .redirect (postOrderFailVo.receipt_url
            (postOrderFailVo.baskets cbPpr.basket_id).order_number)
    ∧ VEvent.logOrderPlacementException
        (postOrderFailVo.baskets cbPpr.basket_id).order_number
        (postOrderFailVo.baskets cbPpr.basket_id).id
        ∈ (success_callback_get testCfg postOrderFailVo cbSt 1).2 :=
  c9_post_order_failure_swallowed_and_logged testCfg postOrderFailVo cbSt 1 cbPpr
    { number := "EDX-100042" } (.otherError "notification failed") rfl rfl rfl rfl

/-- C7 (counterexample): `request_data.update(data)` lets the caller's
payload win on a shared top-level key — a payload binding
`"RequestHeader"` replaces the envelope's value in the merged body, so
envelope fields are not protected from being overwritten. -/
theorem c7_counterexample_caller_payload_overwrites_envelope :
    lookup (dictUpdate (get_base_request_data testCfg "uuid-0" 0)
        [("RequestHeader", .str "overwritten")]) "RequestHeader"
      = some (.str "overwritten")
    ∧ lookup (get_base_request_data testCfg "uuid-0" 0) "RequestHeader"
        ≠ some (.str "overwritten") := by
  constructor
  · rfl
  · simp [get_base_request_data, lookup]

/-- C7 (amended): the merge has `dict.update` semantics — the caller's
payload overwrites the envelope on shared top-level keys — but for every
payload without a `"RequestHeader"` key the merged body is exactly the
envelope's `RequestHeader` entry followed by all the caller's fields, and
none of the four payloads the adapter builds contains `"RequestHeader"`. -/
theorem c7_sent_body_carries_envelope_and_caller_fields :
    (∀ (cfg : Config) (request_id : String) (retry_indicator : Int)
       (d : List (String × PyVal)),
      lookup d "RequestHeader" = Option.none →
      dictUpdate (get_base_request_data cfg request_id retry_indicator) d
        = ("RequestHeader",
           .dict [("SpecVersion", .str "1.19"), ("CustomerId", .str cfg.customer_id),
                  ("RequestId", .str request_id), ("RetryIndicator", .int retry_indicator)])
          :: d)
    ∧ (∀ (cfg : Config) (basket : Basket) (ppr_id : Nat),
        lookup (initialize_request_data cfg basket ppr_id) "RequestHeader" = Option.none)
    ∧ (∀ token : String, lookup [("Token", PyVal.str token)] "RequestHeader" = Option.none)
    ∧ (∀ tid : PyVal,
        lookup [("TransactionReference", PyVal.dict [("TransactionId", tid)])] "RequestHeader"
          = Option.none)
    ∧ (∀ (R : String) (amount : ℚ) (currency : String),
        lookup (refund_request_data R amount currency) "RequestHeader" = Option.none) := by
  refine ⟨?_, fun cfg basket ppr_id => rfl, fun token => rfl, fun tid => rfl,
    fun R amount currency => rfl⟩
  intro cfg request_id retry_indicator d hd
  have hfind : d.find? (fun kv => kv.1 == "RequestHeader") = Option.none := by
    simp only [lookup] at hd
    exact Option.map_eq_none'.mp hd
  have hne : ∀ kv ∈ d, ¬ kv.1 = "RequestHeader" := by
    intro kv hkv
    have := List.find?_eq_none.mp hfind kv hkv
    simpa using this
  simp only [dictUpdate, get_base_request_data, List.map_cons, List.map_nil, hfind,
    List.cons_append, List.nil_append, List.any_cons, List.any_nil, Bool.or_false]
  rw [List.filter_eq_self.mpr]
  intro a ha
  have := hne a ha
  simp [beq_eq_false_iff_ne]
  exact fun hcontra => this hcontra.symm

/-- C7 (witness): the amended merge equation applied to the Assert
payload `{"Token": "TOKEN123"}`. -/
theorem c7_sent_body_carries_envelope_and_caller_fields_witness :
    dictUpdate (get_base_request_data testCfg "uuid-0" 0) [("Token", PyVal.str "TOKEN123")]
      = ("RequestHeader",
         .dict [("SpecVersion", .str "1.19"), ("CustomerId", .str testCfg.customer_id),
                ("RequestId", .str "uuid-0"), ("RetryIndicator", .int 0)])
        :: [("Token", PyVal.str "TOKEN123")] :=
  c7_sent_body_carries_envelope_and_caller_fields.1 testCfg "uuid-0" 0
    [("Token", PyVal.str "TOKEN123")] rfl

/-- C8: if the network call to any endpoint times out, the request helper
raises the gateway error whose message is exactly `"API timeout"` with no
captured response detail, and persists exactly one audit row storing that
error payload. -/
theorem c8_timeout_gateway_error_and_single_audit_row
    (cfg : Config) (oracle : ApiOracle) (endpoint method : String)
    (d : List (String × PyVal)) (basket : Option Basket) (st : St)
    (htimeout : ∀ payload, oracle endpoint payload = .timeout) :
    (make_api_json_request cfg oracle endpoint method (some d) basket st).1
      = .error (.gatewayError timeoutErrorPayload)
    ∧ (make_api_json_request cfg oracle endpoint method (some d) basket st).2.records
      = st.records ++ [api_error_row (.str "API timeout") .none basket st.nextId] := by
  simp only [make_api_json_request, htimeout, raise_api_error_none, basketOfPy_pyOfBasket]
  exact ⟨by simp [timeoutErrorPayload], by simp⟩

/-- C8 (witness): the theorem applied to a service on which every call
times out, at the Capture endpoint. -/
theorem c8_timeout_gateway_error_and_single_audit_row_witness :
    (make_api_json_request testCfg timeoutOracle "Payment/v1/Transaction/Capture" "POST"
        (some [("TransactionReference", .dict [("TransactionId", .str "TID1")])])
        (some testBasket) st0).1
      = .error (.gatewayError timeoutErrorPayload)
    ∧ (make_api_json_request testCfg timeoutOracle "Payment/v1/Transaction/Capture" "POST"
        (some [("TransactionReference", .dict [("TransactionId", .str "TID1")])])
        (some testBasket) st0).2.records
      = st0.records ++ [api_error_row (.str "API timeout") .none (some testBasket) st0.nextId] :=
  c8_timeout_gateway_error_and_single_audit_row testCfg timeoutOracle
    "Payment/v1/Transaction/Capture" "POST"
    [("TransactionReference", .dict [("TransactionId", .str "TID1")])]
    (some testBasket) st0 (fun _ => rfl)

/-- C10: calling `make_api_json_request` with the `data` parameter left at
its `None` default raises `TypeError` at the `dict.update` merge step and
no request is sent (the trace gains no event), so the documented
no-payload/GET default is unusable; and every adapter operation does pass
a dict payload — each one's outbound request for its first endpoint is
always issued, whatever the service does. -/
theorem c10_none_payload_type_error_and_operations_always_send
    (cfg : Config) (oracle : ApiOracle) :
    (∀ (endpoint method : String) (basket : Option Basket) (st : St),
      (make_api_json_request cfg oracle endpoint method Option.none basket st).1
          = .error (.typeError "NoneType object is not iterable")
      ∧ (make_api_json_request cfg oracle endpoint method Option.none basket st).2.events
          = st.events)
    ∧ (∀ (basket : Basket) (st : St), ∃ payload,
        Event.httpRequest "Payment/v1/PaymentPage/Initialize" payload
          ∈ (get_transaction_parameters cfg oracle basket st).2.events)
    ∧ (∀ (token : String) (basket : Option Basket) (st : St), ∃ payload,
        Event.httpRequest "Payment/v1/PaymentPage/Assert" payload
          ∈ (handle_processor_response cfg oracle token basket st).2.events)
    ∧ (∀ (order_number : String) (basket : Basket) (R : String) (amount : ℚ)
         (currency : String) (st : St), ∃ payload,
        Event.httpRequest "Payment/v1/Transaction/Refund" payload
          ∈ (issue_credit cfg oracle order_number basket R amount currency st).2.events) := by
  refine ⟨fun endpoint method basket st => ⟨rfl, rfl⟩, ?_, ?_, ?_⟩
  · intro basket st
    obtain ⟨rest, h⟩ := get_transaction_parameters_events_start cfg oracle basket st
    exact ⟨PyVal.dict (dictUpdate (get_base_request_data cfg (cfg.uuid st.uuidCount) 0)
      (initialize_request_data cfg basket st.nextId)), by rw [h]; simp⟩
  · intro token basket st
    obtain ⟨rest, h⟩ := handle_processor_response_events_start cfg oracle token basket st
    exact ⟨PyVal.dict (dictUpdate (get_base_request_data cfg (cfg.uuid st.uuidCount) 0)
      [("Token", PyVal.str token)]), by rw [h]; simp⟩
  · intro order_number basket R amount currency st
    obtain ⟨rest, h⟩ := issue_credit_events_start cfg oracle order_number basket R
      amount currency st
    exact ⟨PyVal.dict (dictUpdate (get_base_request_data cfg (cfg.uuid st.uuidCount) 0)
      (refund_request_data R amount currency)), by rw [h]; simp⟩

end Saferpay
